import Mathlib

/-!
Verification of the DroQ-SAC training-step algorithm
(`src/sbx/droq_sac/droq.py`, class `DroQ_SAC`).

Shallow embedding conventions:
* numeric array entries are rationals (`ℚ`); arrays are `List`s of rows;
* the five replay-buffer fields are the structure `ReplayBufferSamplesNp`;
* the Python `assert` inside the micro-batch slicing closure (lines 142-145)
  is modelled by `Option`: a failed assertion makes the whole `_train`
  invocation return `none` (the jitted invocation aborts);
* the external network modules (`actor`, `qf`, `ent_coef`) and the optimizer
  are opaque function parameters, exactly as they are opaque static
  arguments of the jitted Python functions;
* `jax.value_and_grad(f, has_aux=True)(p)` returns `f p` as the value part
  (a guarantee of the autodiff library) together with a gradient produced by
  an opaque gradient oracle `grad`;
* the pieces of the base class `SAC` that `_train` calls
  (`SAC.update_critic`, `SAC.soft_update`, `SAC.update_temperature`) are not
  part of the sources under verification; `_train` takes them as opaque
  function parameters of the shapes with which the orchestrator calls them.
-/

namespace Sbx

/-- Replay-buffer batch: five equal-length column arrays
(`ReplayBufferSamplesNp` in the source). Rewards and dones are numeric
columns of row type `R`. -/
structure ReplayBufferSamplesNp (Obs Act R : Type) where
  observations : List Obs
  actions : List Act
  next_observations : List Obs
  rewards : List R
  dones : List R

/-- All five columns of the batch have length `B`. -/
def BatchLen {Obs Act R : Type} (data : ReplayBufferSamplesNp Obs Act R) (B : ℕ) : Prop :=
  data.observations.length = B ∧ data.actions.length = B ∧
    data.next_observations.length = B ∧ data.rewards.length = B ∧ data.dones.length = B

instance {Obs Act R : Type} (data : ReplayBufferSamplesNp Obs Act R) (B : ℕ) :
    Decidable (BatchLen data B) := by
  unfold BatchLen; infer_instance

/-- Rows `[ (x.length / n) * i, (x.length / n) * (i+1) )` of `x`: the body of the
Python closure `slice` (droq.py lines 142-145) after its assertion has passed
(`batch_size = x.shape[0] // gradient_steps; x[batch_size*step : batch_size*(step+1)]`). -/
def microSlice {α : Type} (n i : ℕ) (x : List α) : List α :=
  (x.drop (x.length / n * i)).take (x.length / n)

/-- The Python closure `slice` (droq.py lines 142-145), assertion included:
`assert x.shape[0] % gradient_steps == 0`; a failing assertion aborts the
invocation, modelled as `none`. -/
def slice {α : Type} (n i : ℕ) (x : List α) : Option (List α) :=
  if x.length % n = 0 then some (microSlice n i x) else none

/-- Mean of a list of rationals (`jnp.mean`); the empty mean is `0/0 = 0`. -/
def listMean (l : List ℚ) : ℚ :=
  l.sum / (l.length : ℚ)

/-- Mean across the leading (ensemble) axis of a stacked critic output
(`jnp.mean(qf_pi, axis=0)`): entry `j` is the mean over all ensemble members
of their `j`-th batch entry. -/
def meanAxis0 (qs : List (List ℚ)) : List ℚ :=
  (List.range (qs.headD []).length).map fun j =>
    (qs.map fun row => row.getD j 0).sum / (qs.length : ℚ)

/-- An action distribution as `update_actor` consumes it: sampling with an
explicit noise key (`dist.sample(seed=noise_key)`) and per-sample
log-probabilities (`dist.log_prob`). -/
structure ActorDist (Key Act : Type) where
  sample : Key → List Act
  log_prob : List Act → List ℚ

/-- Embedding of `DroQ_SAC.update_actor` (droq.py lines 74-109).
`split3` is `jax.random.split(key, 3)`; `actor_apply`, `qf_apply`,
`ent_coef_apply` are the opaque network modules; `grad` is the opaque
gradient oracle of `jax.value_and_grad` (whose value part is the loss
function evaluated at the parameters); `actor_params` reads `.params` from
the actor train state and `apply_gradients` is the optimizer step.
Returns `(actor_state, qf_state, actor_loss_value, key, entropy)`. -/
def update_actor {Obs Act AP QP EP G ActorState QfState EntState Key : Type}
    (split3 : Key → Key × Key × Key)
    (actor_apply : AP → List Obs → ActorDist Key Act)
    (qf_apply : QP → List Obs → List Act → Key → List (List ℚ))
    (ent_coef_apply : EP → ℚ)
    (grad : (AP → ℚ × ℚ) → AP → G)
    (actor_params : ActorState → AP)
    (apply_gradients : ActorState → G → ActorState)
    (qf_params : QfState → QP)
    (ent_params : EntState → EP)
    (actor_state : ActorState) (qf_state : QfState) (ent_coef_state : EntState)
    (observations : List Obs) (key : Key) :
    ActorState × QfState × ℚ × Key × ℚ :=
  let ks := split3 key
  let key' := ks.1
  let dropout_key := ks.2.1
  let noise_key := ks.2.2
  let actor_loss : AP → ℚ × ℚ := fun params =>
    let dist := actor_apply params observations
    let actor_actions := dist.sample noise_key
    let log_prob := dist.log_prob actor_actions
    let qf_pi := qf_apply (qf_params qf_state) observations actor_actions dropout_key
    let min_qf_pi := meanAxis0 qf_pi
    let ent_coef_value := ent_coef_apply (ent_params ent_coef_state)
    let loss := listMean (List.zipWith (fun lp q => ent_coef_value * lp - q) log_prob min_qf_pi)
    (loss, -listMean log_prob)
  let value := actor_loss (actor_params actor_state)
  let grads := grad actor_loss (actor_params actor_state)
  let actor_state' := apply_gradients actor_state grads
  (actor_state', qf_state, value.1, key', value.2)

/-- Shape of `SAC.update_critic` as `_train` calls it (droq.py lines 147-161):
`(gamma, actor_state, qf_state, ent_coef_state, observations, actions,
next_observations, rewards, dones, key) ↦ (qf_state, (qf_loss_value,
ent_coef_value), key)`. The static network modules are baked into the
function value. -/
def UpdateCritic (Obs Act R QfState ActorState EntState Key : Type) : Type :=
  ℚ → ActorState → QfState → EntState → List Obs → List Act → List Obs →
    List R → List R → Key → QfState × (ℚ × ℚ) × Key

/-- Shape of `SAC.soft_update` as `_train` calls it (droq.py line 162):
`(tau, qf_state) ↦ qf_state`. -/
def SoftUpdate (QfState : Type) : Type :=
  ℚ → QfState → QfState

/-- Shape of the actor update as `_train` calls it (droq.py lines 166-175):
`(actor_state, qf_state, ent_coef_state, observations, key) ↦
(actor_state, qf_state, actor_loss_value, key, entropy)`. -/
def UpdateActorFn (Obs ActorState QfState EntState Key : Type) : Type :=
  ActorState → QfState → EntState → List Obs → Key →
    ActorState × QfState × ℚ × Key × ℚ

/-- Shape of `SAC.update_temperature` as `_train` calls it (droq.py line 176):
`(target_entropy, ent_coef_state, entropy) ↦ (ent_coef_state, loss)`. -/
def UpdateTemperature (EntState : Type) : Type :=
  ℚ → EntState → ℚ → EntState × ℚ

/-- State carried across the critic loop of `_train`: the mutable Python
locals `n_updates`, `qf_state`, `key` and the most recent
`(qf_loss_value, ent_coef_value)` pair. -/
structure CriticLoopState (QfState Key : Type) where
  n_updates : ℕ
  qf_state : QfState
  key : Key
  losses : ℚ × ℚ

/-- One iteration of the critic loop of `_train` (droq.py lines 139-162):
increment `n_updates`, slice all five batch columns at step `i`
(assertion failure aborts), run the critic update on the micro-batch, then
the target soft update. -/
def criticStep {Obs Act R QfState ActorState EntState Key : Type}
    (uc : UpdateCritic Obs Act R QfState ActorState EntState Key)
    (su : SoftUpdate QfState) (gamma tau : ℚ) (gradient_steps : ℕ)
    (data : ReplayBufferSamplesNp Obs Act R)
    (actor_state : ActorState) (ent_coef_state : EntState)
    (i : ℕ) (s : CriticLoopState QfState Key) :
    Option (CriticLoopState QfState Key) := do
  let obs ← slice gradient_steps i data.observations
  let acts ← slice gradient_steps i data.actions
  let next_obs ← slice gradient_steps i data.next_observations
  let rews ← slice gradient_steps i data.rewards
  let dns ← slice gradient_steps i data.dones
  let r := uc gamma actor_state s.qf_state ent_coef_state obs acts next_obs rews dns s.key
  some ⟨s.n_updates + 1, su tau r.1, r.2.2, r.2.1⟩

/-- The critic loop of `_train`, iterating `criticStep` over a list of step
indices (the Python `for i in range(gradient_steps)`). -/
def criticLoop {Obs Act R QfState ActorState EntState Key : Type}
    (uc : UpdateCritic Obs Act R QfState ActorState EntState Key)
    (su : SoftUpdate QfState) (gamma tau : ℚ) (gradient_steps : ℕ)
    (data : ReplayBufferSamplesNp Obs Act R)
    (actor_state : ActorState) (ent_coef_state : EntState) :
    List ℕ → CriticLoopState QfState Key → Option (CriticLoopState QfState Key)
  | [], s => some s
  | i :: rest, s =>
    match criticStep uc su gamma tau gradient_steps data actor_state ent_coef_state i s with
    | none => none
    | some s' => criticLoop uc su gamma tau gradient_steps data actor_state ent_coef_state rest s'

/-- Embedding of `DroQ_SAC._train` (droq.py lines 111-185): run
`gradient_steps` critic-update+soft-update cycles over the micro-batch
slices, then one actor update on the slice of the loop's final index
(the Python closure `slice` captured `step = gradient_steps - 1`), then one
temperature update. With `gradient_steps = 0` the loop never defines the
slicing closure and the post-loop actor-update call fails (no micro-batch
can be produced); this abort is modelled as `none`. Returns
`(n_updates, qf_state, actor_state, ent_coef_state, key,
(actor_loss_value, qf_loss_value, ent_coef_value))`. -/
def _train {Obs Act R QfState ActorState EntState Key : Type}
    (uc : UpdateCritic Obs Act R QfState ActorState EntState Key)
    (su : SoftUpdate QfState)
    (ua : UpdateActorFn Obs ActorState QfState EntState Key)
    (ut : UpdateTemperature EntState)
    (gamma tau target_entropy : ℚ) (gradient_steps : ℕ)
    (data : ReplayBufferSamplesNp Obs Act R) (n_updates : ℕ)
    (qf_state : QfState) (actor_state : ActorState) (ent_coef_state : EntState)
    (key : Key) :
    Option (ℕ × QfState × ActorState × EntState × Key × (ℚ × ℚ × ℚ)) := do
  let s ← criticLoop uc su gamma tau gradient_steps data actor_state ent_coef_state
      (List.range gradient_steps) ⟨n_updates, qf_state, key, (0, 0)⟩
  if gradient_steps = 0 then
    none
  else do
    let obs ← slice gradient_steps (gradient_steps - 1) data.observations
    let r := ua actor_state s.qf_state ent_coef_state obs s.key
    let et := ut target_entropy ent_coef_state r.2.2.2.2
    some (s.n_updates, r.2.1, r.1, et.1, r.2.2.2.1, (r.2.2.1, s.losses.1, s.losses.2))

/-- Pure form of one critic-loop iteration: what `criticStep` computes once
the slicing assertions are known to pass. -/
def criticStepPure {Obs Act R QfState ActorState EntState Key : Type}
    (uc : UpdateCritic Obs Act R QfState ActorState EntState Key)
    (su : SoftUpdate QfState) (gamma tau : ℚ) (gradient_steps : ℕ)
    (data : ReplayBufferSamplesNp Obs Act R)
    (actor_state : ActorState) (ent_coef_state : EntState)
    (s : CriticLoopState QfState Key) (i : ℕ) :
    CriticLoopState QfState Key :=
  let r := uc gamma actor_state s.qf_state ent_coef_state
      (microSlice gradient_steps i data.observations)
      (microSlice gradient_steps i data.actions)
      (microSlice gradient_steps i data.next_observations)
      (microSlice gradient_steps i data.rewards)
      (microSlice gradient_steps i data.dones) s.key
  ⟨s.n_updates + 1, su tau r.1, r.2.2, r.2.1⟩

lemma slice_eq_of_mod {α : Type} {n : ℕ} {x : List α} (h : x.length % n = 0) (i : ℕ) :
    slice n i x = some (microSlice n i x) := by
  simp [slice, h]

lemma criticStep_eq_pure {Obs Act R QfState ActorState EntState Key : Type}
    (uc : UpdateCritic Obs Act R QfState ActorState EntState Key)
    (su : SoftUpdate QfState) (gamma tau : ℚ) (n : ℕ)
    (data : ReplayBufferSamplesNp Obs Act R)
    (actor_state : ActorState) (ent_coef_state : EntState)
    (h1 : data.observations.length % n = 0) (h2 : data.actions.length % n = 0)
    (h3 : data.next_observations.length % n = 0) (h4 : data.rewards.length % n = 0)
    (h5 : data.dones.length % n = 0) (i : ℕ) (s : CriticLoopState QfState Key) :
    criticStep uc su gamma tau n data actor_state ent_coef_state i s =
      some (criticStepPure uc su gamma tau n data actor_state ent_coef_state s i) := by
  simp [criticStep, criticStepPure, slice_eq_of_mod, h1, h2, h3, h4, h5]

lemma criticLoop_eq_foldl {Obs Act R QfState ActorState EntState Key : Type}
    (uc : UpdateCritic Obs Act R QfState ActorState EntState Key)
    (su : SoftUpdate QfState) (gamma tau : ℚ) (n : ℕ)
    (data : ReplayBufferSamplesNp Obs Act R)
    (actor_state : ActorState) (ent_coef_state : EntState)
    (h1 : data.observations.length % n = 0) (h2 : data.actions.length % n = 0)
    (h3 : data.next_observations.length % n = 0) (h4 : data.rewards.length % n = 0)
    (h5 : data.dones.length % n = 0) (l : List ℕ) :
    ∀ s : CriticLoopState QfState Key,
      criticLoop uc su gamma tau n data actor_state ent_coef_state l s =
        some (l.foldl (criticStepPure uc su gamma tau n data actor_state ent_coef_state) s) := by
  induction l with
  | nil => intro s; rfl
  | cons i rest ih =>
    intro s
    rw [criticLoop, criticStep_eq_pure uc su gamma tau n data actor_state ent_coef_state
      h1 h2 h3 h4 h5 i s]
    exact ih _

/-- When `gradient_steps ≠ 0` and the batch length is divisible by
`gradient_steps`, `_train` runs to completion and equals the pure fold of
critic cycles followed by the single actor and temperature updates. -/
lemma train_eq_of_dvd {Obs Act R QfState ActorState EntState Key : Type}
    (uc : UpdateCritic Obs Act R QfState ActorState EntState Key)
    (su : SoftUpdate QfState)
    (ua : UpdateActorFn Obs ActorState QfState EntState Key)
    (ut : UpdateTemperature EntState)
    (gamma tau target_entropy : ℚ) {n B : ℕ}
    (data : ReplayBufferSamplesNp Obs Act R) (n_updates : ℕ)
    (q0 : QfState) (a0 : ActorState) (e0 : EntState) (k0 : Key)
    (hn : n ≠ 0) (hB : BatchLen data B) (hdvd : B % n = 0) :
    _train uc su ua ut gamma tau target_entropy n data n_updates q0 a0 e0 k0 =
      (let s := (List.range n).foldl
        (criticStepPure uc su gamma tau n data a0 e0) ⟨n_updates, q0, k0, (0, 0)⟩
       let r := ua a0 s.qf_state e0 (microSlice n (n - 1) data.observations) s.key
       some (s.n_updates, r.2.1, r.1, (ut target_entropy e0 r.2.2.2.2).1, r.2.2.2.1,
         (r.2.2.1, s.losses.1, s.losses.2))) := by
  obtain ⟨h1, h2, h3, h4, h5⟩ := hB
  rw [_train, criticLoop_eq_foldl uc su gamma tau n data a0 e0
    (h1 ▸ hdvd) (h2 ▸ hdvd) (h3 ▸ hdvd) (h4 ▸ hdvd) (h5 ▸ hdvd)]
  simp [hn, slice_eq_of_mod (h1 ▸ hdvd)]

lemma foldl_criticStepPure_n_updates {Obs Act R QfState ActorState EntState Key : Type}
    (uc : UpdateCritic Obs Act R QfState ActorState EntState Key)
    (su : SoftUpdate QfState) (gamma tau : ℚ) (n : ℕ)
    (data : ReplayBufferSamplesNp Obs Act R)
    (actor_state : ActorState) (ent_coef_state : EntState) (l : List ℕ) :
    ∀ s : CriticLoopState QfState Key,
      ((l.foldl (criticStepPure uc su gamma tau n data actor_state ent_coef_state) s).n_updates)
        = s.n_updates + l.length := by
  induction l with
  | nil => intro s; simp
  | cons i rest ih =>
    intro s
    rw [List.foldl_cons, ih]
    simp [criticStepPure]
    omega

lemma microSlice_length {α : Type} {n : ℕ} {x : List α} (h : x.length % n = 0)
    {i : ℕ} (hi : i < n) :
    (microSlice n i x).length = x.length / n := by
  have hd : n ∣ x.length := Nat.dvd_of_mod_eq_zero h
  have hlen : n * (x.length / n) = x.length := Nat.mul_div_cancel' hd
  have hle : x.length / n * i + x.length / n ≤ x.length := by
    calc x.length / n * i + x.length / n = x.length / n * (i + 1) := by ring
    _ ≤ x.length / n * n := Nat.mul_le_mul_left _ hi
    _ = x.length := by rw [Nat.mul_comm]; exact hlen
  simp only [microSlice, List.length_take, List.length_drop]
  omega

lemma microSlice_getD {α : Type} {n : ℕ} (x : List α) (i j : ℕ)
    (hj : j < x.length / n) (d : α) :
    (microSlice n i x).getD j d = x.getD (x.length / n * i + j) d := by
  rw [microSlice, List.getD_eq_getElem?_getD, List.getD_eq_getElem?_getD,
    List.getElem?_take, if_pos hj, List.getElem?_drop]

lemma flatten_slices_aux {α : Type} : ∀ (n m : ℕ) (x : List α), x.length = n * m →
    ((List.range n).map fun i => (x.drop (m * i)).take m).flatten = x := by
  intro n
  induction n with
  | zero =>
    intro m x hx
    simp only [Nat.zero_mul] at hx
    simp [List.eq_nil_of_length_eq_zero hx]
  | succ k ih =>
    intro m x hx
    have h1 : (x.drop m).length = k * m := by
      rw [List.length_drop, hx, Nat.succ_mul]; omega
    have h2 : ∀ i, x.drop (m * (i + 1)) = (x.drop m).drop (m * i) := by
      intro i
      rw [List.drop_drop]
      congr 1
      ring
    rw [List.range_succ_eq_map, List.map_cons, List.flatten_cons, List.map_map]
    have h3 : ((List.range k).map ((fun i => (x.drop (m * i)).take m) ∘ Nat.succ))
        = (List.range k).map fun i => ((x.drop m).drop (m * i)).take m := by
      apply List.map_congr_left
      intro a _
      simp only [Function.comp]
      rw [h2 a]
    rw [h3, ih m (x.drop m) h1]
    simp

/-- The `gradient_steps` micro-batch slices, concatenated in order, give back
the whole batch column: the slices are equal-sized, contiguous,
non-overlapping, cover the batch, and are not shuffled. -/
lemma flatten_microSlice {α : Type} {n : ℕ} {x : List α} (h : x.length % n = 0) :
    ((List.range n).map fun i => microSlice n i x).flatten = x := by
  have hd : n ∣ x.length := Nat.dvd_of_mod_eq_zero h
  have hx : x.length = n * (x.length / n) := (Nat.mul_div_cancel' hd).symm
  have := flatten_slices_aux n (x.length / n) x hx
  simpa [microSlice] using this

/-- Pass-through critic-update stub: leaves the critic state and key alone and
reports zero losses. -/
def passCritic {QfState ActorState EntState Key : Type} :
    UpdateCritic ℚ ℚ ℚ QfState ActorState EntState Key :=
  fun _gamma _a q _e _ _ _ _ _ k => (q, (0, 0), k)

/-- Pass-through soft-update stub. -/
def passSoft {QfState : Type} : SoftUpdate QfState :=
  fun _tau q => q

/-- Pass-through actor-update stub. -/
def passActor {Obs ActorState QfState EntState Key : Type} :
    UpdateActorFn Obs ActorState QfState EntState Key :=
  fun a q _e _obs k => (a, q, 0, k, 0)

/-- Pass-through temperature-update stub. -/
def passTemp {EntState : Type} : UpdateTemperature EntState :=
  fun _te e _ent => (e, 0)

/-- Call-count instrumentation stub for the critic update: the critic state is
a pair of call counters (critic updates, soft updates) and the critic update
increments the first. -/
def countCritic : UpdateCritic ℚ ℚ ℚ (ℕ × ℕ) ℕ ℕ ℕ :=
  fun _gamma _a q _e _ _ _ _ _ k => ((q.1 + 1, q.2), (0, 0), k)

/-- Call-count instrumentation stub for the soft update: increments the second
counter of the critic state. -/
def countSoft : SoftUpdate (ℕ × ℕ) :=
  fun _tau q => (q.1, q.2 + 1)

/-- Call-count instrumentation stub for the actor update: the actor state is a
call counter. -/
def countActor : UpdateActorFn ℚ ℕ (ℕ × ℕ) ℕ ℕ :=
  fun a q _e _obs k => (a + 1, q, 0, k, 0)

/-- Call-count instrumentation stub for the temperature update: the
entropy-coefficient state is a call counter. -/
def countTemp : UpdateTemperature ℕ :=
  fun _te e _ent => (e + 1, 0)

/-- A concrete batch of four transitions used to instantiate theorems with
hypotheses at explicit inputs. -/
def sampleBatch : ReplayBufferSamplesNp ℚ ℚ ℚ :=
  ⟨[1, 2, 3, 4], [5, 6, 7, 8], [9, 10, 11, 12], [0, 1, 0, 1], [0, 0, 1, 1]⟩

lemma foldl_countCritic (gamma tau : ℚ) (n : ℕ) (data : ReplayBufferSamplesNp ℚ ℚ ℚ)
    (a0 e0 : ℕ) (l : List ℕ) :
    ∀ s : CriticLoopState (ℕ × ℕ) ℕ, s.losses = (0, 0) →
      l.foldl (criticStepPure countCritic countSoft gamma tau n data a0 e0) s
        = ⟨s.n_updates + l.length, (s.qf_state.1 + l.length, s.qf_state.2 + l.length),
            s.key, (0, 0)⟩ := by
  induction l with
  | nil => intro s hs; simp [← hs]
  | cons i rest ih =>
    intro s hs
    rw [List.foldl_cons]
    rw [ih _ rfl]
    simp [criticStepPure, countCritic, countSoft]
    omega

/-- Claim C1: for every `_train` invocation with `gradient_steps = n ≥ 1` and a
batch whose length is divisible by `n`, the orchestrator performs exactly `n`
critic-update+soft-update cycles (each incrementing `n_updates` by one, so the
returned `n_updates` is the input plus `n`) and then exactly one actor update
and exactly one temperature update, regardless of `n` — verified by call-count
instrumentation stubs. -/
theorem train_cycle_counts (gamma tau target_entropy : ℚ) {n B : ℕ}
    (data : ReplayBufferSamplesNp ℚ ℚ ℚ) (n_updates c0 s0 a0 t0 k0 : ℕ)
    (hn : 1 ≤ n) (hB : BatchLen data B) (hdvd : B % n = 0) :
    _train countCritic countSoft countActor countTemp gamma tau target_entropy n data
        n_updates (c0, s0) a0 t0 k0
      = some (n_updates + n, (c0 + n, s0 + n), a0 + 1, t0 + 1, k0, (0, 0, 0)) := by
  rw [train_eq_of_dvd countCritic countSoft countActor countTemp gamma tau target_entropy
    data n_updates (c0, s0) a0 t0 k0 (by omega) hB hdvd]
  rw [foldl_countCritic gamma tau n data a0 t0 (List.range n) _ rfl]
  simp [countActor, countTemp]

/-- Witness for C1 at a concrete input: `n = 2`, batch of length 4. -/
theorem train_cycle_counts_witness :
    _train countCritic countSoft countActor countTemp 0 0 0 2 sampleBatch 5 (3, 4) 7 9 11
      = some (7, (5, 6), 8, 10, 11, (0, 0, 0)) :=
  train_cycle_counts 0 0 0 sampleBatch 5 3 4 7 9 11 (by decide)
    (show BatchLen sampleBatch 4 by decide) (by decide)

/-- Claim C5: a `_train` invocation whose batch length is not divisible by
`gradient_steps` fails on the slicing helper's assertion and aborts (no
micro-batch is silently truncated); when divisibility holds the assertion
never fires and the invocation completes, for every choice of the collaborator
update functions. -/
theorem train_divisibility_assertion {Obs Act R QfState ActorState EntState Key : Type}
    (uc : UpdateCritic Obs Act R QfState ActorState EntState Key)
    (su : SoftUpdate QfState)
    (ua : UpdateActorFn Obs ActorState QfState EntState Key)
    (ut : UpdateTemperature EntState)
    (gamma tau target_entropy : ℚ) {n B : ℕ}
    (data : ReplayBufferSamplesNp Obs Act R) (n_updates : ℕ)
    (q0 : QfState) (a0 : ActorState) (e0 : EntState) (k0 : Key)
    (hn : 1 ≤ n) (hB : BatchLen data B) :
    (¬ n ∣ B →
      _train uc su ua ut gamma tau target_entropy n data n_updates q0 a0 e0 k0 = none)
    ∧ (n ∣ B →
      (_train uc su ua ut gamma tau target_entropy n data n_updates q0 a0 e0 k0).isSome) := by
  constructor
  · intro hndvd
    have hmod : ¬ data.observations.length % n = 0 := by
      rw [hB.1]
      exact fun hc => hndvd (Nat.dvd_of_mod_eq_zero hc)
    obtain ⟨m, rfl⟩ : ∃ m, n = m + 1 := ⟨n - 1, by omega⟩
    rw [_train, List.range_succ_eq_map, criticLoop]
    simp [criticStep, slice, hmod]
  · intro hdvd
    rw [train_eq_of_dvd uc su ua ut gamma tau target_entropy data n_updates q0 a0 e0 k0
      (by omega) hB (Nat.mod_eq_zero_of_dvd hdvd)]
    simp

/-- Witness for C5 at concrete inputs: with `n = 3` and a batch of length 4 the
invocation aborts; with `n = 2` it completes. -/
theorem train_divisibility_assertion_witness :
    _train (passCritic : UpdateCritic ℚ ℚ ℚ ℕ ℕ ℕ ℕ) passSoft passActor passTemp
        0 0 0 3 sampleBatch 0 0 0 0 0 = none
    ∧ (_train (passCritic : UpdateCritic ℚ ℚ ℚ ℕ ℕ ℕ ℕ) passSoft passActor passTemp
        0 0 0 2 sampleBatch 0 0 0 0 0).isSome :=
  ⟨(train_divisibility_assertion passCritic passSoft passActor passTemp 0 0 0 sampleBatch
      0 0 0 0 0 (by decide) (show BatchLen sampleBatch 4 by decide)).1 (by decide),
   (train_divisibility_assertion passCritic passSoft passActor passTemp 0 0 0 sampleBatch
      0 0 0 0 0 (by decide) (show BatchLen sampleBatch 4 by decide)).2 (by decide)⟩

/-- Actor-update stub recording the observations it receives as the new actor
state. -/
def recordActor {QfState EntState Key : Type} :
    UpdateActorFn ℚ (List ℚ) QfState EntState Key :=
  fun _a q _e obs k => (obs, q, 0, k, 0)

/-- Claim C3: for every `_train` invocation with `gradient_steps = n ≥ 1`, the
single post-loop actor update consumes exactly the last micro-batch slice —
the observation rows `[(n-1)·m, n·m)` with `m = B / n` — because the slicing
closure captured the critic loop's final index `n - 1`; verified with a
recording actor stub, for every choice of the other collaborators. -/
theorem train_actor_last_slice {QfState EntState Key : Type}
    (uc : UpdateCritic ℚ ℚ ℚ QfState (List ℚ) EntState Key)
    (su : SoftUpdate QfState) (ut : UpdateTemperature EntState)
    (gamma tau target_entropy : ℚ) {n B : ℕ}
    (data : ReplayBufferSamplesNp ℚ ℚ ℚ) (n_updates : ℕ)
    (q0 : QfState) (a0 : List ℚ) (e0 : EntState) (k0 : Key)
    (hn : 1 ≤ n) (hB : BatchLen data B) (hdvd : B % n = 0) :
    ∃ r, _train uc su recordActor ut gamma tau target_entropy n data n_updates q0 a0 e0 k0
        = some r
      ∧ r.2.2.1 = (data.observations.drop ((n - 1) * (B / n))).take (B / n)
      ∧ ∀ j, j < B / n →
          r.2.2.1.getD j 0 = data.observations.getD ((n - 1) * (B / n) + j) 0 := by
  rw [train_eq_of_dvd uc su recordActor ut gamma tau target_entropy data n_updates q0 a0 e0 k0
    (by omega) hB hdvd]
  refine ⟨_, rfl, ?_, ?_⟩
  · show microSlice n (n - 1) data.observations = _
    rw [microSlice, hB.1, Nat.mul_comm]
  · intro j hj
    show (microSlice n (n - 1) data.observations).getD j 0 = _
    rw [microSlice_getD data.observations (n - 1) j (by rw [hB.1]; exact hj) 0, hB.1,
      Nat.mul_comm]

/-- Witness for C3 at a concrete input: `n = 2`, batch of length 4; the actor
update sees rows 2 and 3 of the observations. -/
theorem train_actor_last_slice_witness :
    ∃ r, _train (passCritic : UpdateCritic ℚ ℚ ℚ ℕ (List ℚ) ℕ ℕ) passSoft recordActor
        passTemp 0 0 0 2 sampleBatch 0 0 [] 0 0 = some r
      ∧ r.2.2.1 = (sampleBatch.observations.drop 2).take 2
      ∧ ∀ j, j < 2 → r.2.2.1.getD j 0 = sampleBatch.observations.getD (2 + j) 0 :=
  train_actor_last_slice passCritic passSoft passTemp 0 0 0 sampleBatch 0 0 [] 0 0
    (by decide) (show BatchLen sampleBatch 4 by decide) (by decide)

/-- Critic-update stub recording the micro-batch it receives: the critic state
is the list of received `(observations, actions, next_observations, rewards,
dones)` tuples. -/
def recordCritic {ActorState EntState Key : Type} :
    UpdateCritic ℚ ℚ ℚ (List (List ℚ × List ℚ × List ℚ × List ℚ × List ℚ))
      ActorState EntState Key :=
  fun _gamma _a q _e obs acts nobs rews dns k => (q ++ [(obs, acts, nobs, rews, dns)], (0, 0), k)

lemma foldl_recordCritic {ActorState EntState Key : Type} (gamma tau : ℚ) (n : ℕ)
    (data : ReplayBufferSamplesNp ℚ ℚ ℚ) (a0 : ActorState) (e0 : EntState) (l : List ℕ) :
    ∀ s : CriticLoopState (List (List ℚ × List ℚ × List ℚ × List ℚ × List ℚ)) Key,
      (l.foldl (criticStepPure recordCritic passSoft gamma tau n data a0 e0) s).qf_state
        = s.qf_state ++ l.map (fun i =>
            (microSlice n i data.observations, microSlice n i data.actions,
             microSlice n i data.next_observations, microSlice n i data.rewards,
             microSlice n i data.dones)) := by
  induction l with
  | nil => intro s; simp
  | cons i rest ih =>
    intro s
    rw [List.foldl_cons, ih]
    simp [criticStepPure, recordCritic, passSoft]

/-- Claim C4: with `B % n = 0`, the `i`-th critic cycle consumes exactly the
contiguous rows `[i·m, (i+1)·m)` (`m = B / n`) of every one of the five batch
columns, the same slicing applied identically to all columns; the slices are
equal-sized, and concatenated in order they give back the whole column
(contiguous, non-overlapping, covering, unshuffled). -/
theorem train_slices_batch {ActorState EntState Key : Type}
    (ua : UpdateActorFn ℚ ActorState (List (List ℚ × List ℚ × List ℚ × List ℚ × List ℚ))
      EntState Key)
    (ut : UpdateTemperature EntState) (gamma tau target_entropy : ℚ) {n B : ℕ}
    (data : ReplayBufferSamplesNp ℚ ℚ ℚ) (n_updates : ℕ)
    (a0 : ActorState) (e0 : EntState) (k0 : Key)
    (hn : 1 ≤ n) (hB : BatchLen data B) (hdvd : B % n = 0) :
    ∃ r, _train recordCritic passSoft ua ut gamma tau target_entropy n data n_updates
        [] a0 e0 k0 = some r
      ∧ r.2.1 = (ua a0 ((List.range n).map fun i =>
          (microSlice n i data.observations, microSlice n i data.actions,
           microSlice n i data.next_observations, microSlice n i data.rewards,
           microSlice n i data.dones)) e0
            (microSlice n (n - 1) data.observations)
            ((List.range n).foldl
              (criticStepPure recordCritic passSoft gamma tau n data a0 e0)
              ⟨n_updates, [], k0, (0, 0)⟩).key).2.1
      ∧ ((List.range n).foldl (criticStepPure recordCritic passSoft gamma tau n data a0 e0)
            ⟨n_updates, [], k0, (0, 0)⟩).qf_state
          = (List.range n).map (fun i =>
              (microSlice n i data.observations, microSlice n i data.actions,
               microSlice n i data.next_observations, microSlice n i data.rewards,
               microSlice n i data.dones))
      ∧ (∀ i, i < n →
            (microSlice n i data.observations).length = B / n
          ∧ (microSlice n i data.actions).length = B / n
          ∧ (microSlice n i data.next_observations).length = B / n
          ∧ (microSlice n i data.rewards).length = B / n
          ∧ (microSlice n i data.dones).length = B / n)
      ∧ (∀ i j, i < n → j < B / n →
          (microSlice n i data.observations).getD j 0
            = data.observations.getD (i * (B / n) + j) 0)
      ∧ ((List.range n).map fun i => microSlice n i data.observations).flatten
          = data.observations := by
  obtain ⟨h1, h2, h3, h4, h5⟩ := hB
  rw [train_eq_of_dvd recordCritic passSoft ua ut gamma tau target_entropy data n_updates
    [] a0 e0 k0 (by omega) ⟨h1, h2, h3, h4, h5⟩ hdvd]
  have hfold := foldl_recordCritic gamma tau n data a0 e0 (List.range n)
    (⟨n_updates, [], k0, (0, 0)⟩ : CriticLoopState _ Key)
  simp only [List.nil_append] at hfold
  refine ⟨_, rfl, ?_, hfold, ?_, ?_, ?_⟩
  · rw [hfold]
  · intro i hi
    exact ⟨microSlice_length (h1 ▸ hdvd) hi ▸ by rw [h1],
           microSlice_length (h2 ▸ hdvd) hi ▸ by rw [h2],
           microSlice_length (h3 ▸ hdvd) hi ▸ by rw [h3],
           microSlice_length (h4 ▸ hdvd) hi ▸ by rw [h4],
           microSlice_length (h5 ▸ hdvd) hi ▸ by rw [h5]⟩
  · intro i j hi hj
    rw [microSlice_getD data.observations i j (by rw [h1]; exact hj) 0, h1, Nat.mul_comm]
  · exact flatten_microSlice (h1 ▸ hdvd)

/-- Witness for C4 at a concrete input: `n = 2`, batch of length 4. -/
theorem train_slices_batch_witness :
    ∃ r, _train recordCritic passSoft
        (passActor : UpdateActorFn ℚ ℕ (List (List ℚ × List ℚ × List ℚ × List ℚ × List ℚ)) ℕ ℕ)
        passTemp 0 0 0 2 sampleBatch 0 [] 0 0 0 = some r
      ∧ r.2.1 = (passActor 0 ((List.range 2).map fun i =>
          (microSlice 2 i sampleBatch.observations, microSlice 2 i sampleBatch.actions,
           microSlice 2 i sampleBatch.next_observations, microSlice 2 i sampleBatch.rewards,
           microSlice 2 i sampleBatch.dones)) 0
            (microSlice 2 1 sampleBatch.observations)
            ((List.range 2).foldl
              (criticStepPure recordCritic passSoft 0 0 2 sampleBatch 0 0)
              ⟨0, [], 0, (0, 0)⟩).key).2.1
      ∧ ((List.range 2).foldl (criticStepPure recordCritic passSoft 0 0 2 sampleBatch 0 0)
            ⟨0, [], 0, (0, 0)⟩).qf_state
          = (List.range 2).map (fun i =>
              (microSlice 2 i sampleBatch.observations, microSlice 2 i sampleBatch.actions,
               microSlice 2 i sampleBatch.next_observations, microSlice 2 i sampleBatch.rewards,
               microSlice 2 i sampleBatch.dones))
      ∧ (∀ i, i < 2 →
            (microSlice 2 i sampleBatch.observations).length = 2
          ∧ (microSlice 2 i sampleBatch.actions).length = 2
          ∧ (microSlice 2 i sampleBatch.next_observations).length = 2
          ∧ (microSlice 2 i sampleBatch.rewards).length = 2
          ∧ (microSlice 2 i sampleBatch.dones).length = 2)
      ∧ (∀ i j, i < 2 → j < 2 →
          (microSlice 2 i sampleBatch.observations).getD j 0
            = sampleBatch.observations.getD (i * 2 + j) 0)
      ∧ ((List.range 2).map fun i => microSlice 2 i sampleBatch.observations).flatten
          = sampleBatch.observations :=
  train_slices_batch passActor passTemp 0 0 0 sampleBatch 0 0 0 0 (by decide)
    (show BatchLen sampleBatch 4 by decide) (by decide)

/-- Critic-update stub whose critic state counts cycles and whose reported
losses identify the cycle that produced them: cycle with counter `q` reports
`(q, 1000 + q)` as `(qf_loss_value, ent_coef_value)`. -/
def lossCritic {ActorState EntState Key : Type} :
    UpdateCritic ℚ ℚ ℚ ℕ ActorState EntState Key :=
  fun _gamma _a q _e _ _ _ _ _ k => (q + 1, ((q : ℚ), 1000 + (q : ℚ)), k)

lemma foldl_lossCritic {ActorState EntState Key : Type} (gamma tau : ℚ) (n : ℕ)
    (data : ReplayBufferSamplesNp ℚ ℚ ℚ) (a0 : ActorState) (e0 : EntState) (l : List ℕ) :
    ∀ s : CriticLoopState ℕ Key,
      (l.foldl (criticStepPure lossCritic passSoft gamma tau n data a0 e0) s).qf_state
          = s.qf_state + l.length
      ∧ (l ≠ [] →
          (l.foldl (criticStepPure lossCritic passSoft gamma tau n data a0 e0) s).losses
            = (((s.qf_state + l.length - 1 : ℕ) : ℚ),
               1000 + ((s.qf_state + l.length - 1 : ℕ) : ℚ))) := by
  induction l with
  | nil => intro s; exact ⟨by simp, by simp⟩
  | cons i rest ih =>
    intro s
    rw [List.foldl_cons]
    have hstep : criticStepPure lossCritic passSoft gamma tau n data a0 e0 s i
        = ⟨s.n_updates + 1, s.qf_state + 1, s.key, ((s.qf_state : ℚ), 1000 + (s.qf_state : ℚ))⟩ := by
      simp [criticStepPure, lossCritic, passSoft]
    rw [hstep]
    obtain ⟨ihq, ihl⟩ := ih ⟨s.n_updates + 1, s.qf_state + 1, s.key,
      ((s.qf_state : ℚ), 1000 + (s.qf_state : ℚ))⟩
    refine ⟨by rw [ihq]; simp; omega, fun _ => ?_⟩
    rcases rest with _ | ⟨j, rest'⟩
    · simp only [List.foldl_nil, List.length_cons, List.length_nil]
      simp
    · rw [ihl (by simp)]
      have : s.qf_state + 1 + (j :: rest').length - 1 = s.qf_state + (i :: j :: rest').length - 1 := by
        simp; omega
      rw [this]

/-- Claim C9: the `(qf_loss_value, ent_coef_value)` pair in the diagnostics
tuple returned by `_train` is the one produced by the last critic cycle only
(the cycle on slice `n - 1`), not an aggregate, and it is unaffected by the
temperature update performed afterwards (the theorem holds for every
temperature-update function `ut`, so the reported temperature predates the
temperature update). -/
theorem train_diagnostics_last_cycle {ActorState EntState Key : Type}
    (ua : UpdateActorFn ℚ ActorState ℕ EntState Key) (ut : UpdateTemperature EntState)
    (gamma tau target_entropy : ℚ) {n B : ℕ}
    (data : ReplayBufferSamplesNp ℚ ℚ ℚ) (n_updates : ℕ)
    (a0 : ActorState) (e0 : EntState) (k0 : Key)
    (hn : 1 ≤ n) (hB : BatchLen data B) (hdvd : B % n = 0) :
    ∃ r, _train lossCritic passSoft ua ut gamma tau target_entropy n data n_updates
        0 a0 e0 k0 = some r
      ∧ r.2.2.2.2.2.2.1 = ((n - 1 : ℕ) : ℚ)
      ∧ r.2.2.2.2.2.2.2 = 1000 + ((n - 1 : ℕ) : ℚ) := by
  rw [train_eq_of_dvd lossCritic passSoft ua ut gamma tau target_entropy data n_updates
    0 a0 e0 k0 (by omega) hB hdvd]
  obtain ⟨_, ihl⟩ := foldl_lossCritic gamma tau n data a0 e0 (List.range n)
    (⟨n_updates, 0, k0, (0, 0)⟩ : CriticLoopState ℕ Key)
  have hne : List.range n ≠ [] := by
    intro hc
    have := congrArg List.length hc
    simp at this
    omega
  have hr := ihl hne
  refine ⟨_, rfl, ?_, ?_⟩
  · show ((List.range n).foldl (criticStepPure lossCritic passSoft gamma tau n data a0 e0)
      ⟨n_updates, 0, k0, (0, 0)⟩).losses.1 = _
    rw [hr]
    simp
  · show ((List.range n).foldl (criticStepPure lossCritic passSoft gamma tau n data a0 e0)
      ⟨n_updates, 0, k0, (0, 0)⟩).losses.2 = _
    rw [hr]
    simp

/-- Witness for C9 at a concrete input: `n = 2`, batch of length 4; the
diagnostics report the losses of cycle index 1. -/
theorem train_diagnostics_last_cycle_witness :
    ∃ r, _train lossCritic passSoft (passActor : UpdateActorFn ℚ ℕ ℕ ℕ ℕ) passTemp
        0 0 0 2 sampleBatch 0 0 0 0 0 = some r
      ∧ r.2.2.2.2.2.2.1 = ((1 : ℕ) : ℚ)
      ∧ r.2.2.2.2.2.2.2 = 1000 + ((1 : ℕ) : ℚ) :=
  train_diagnostics_last_cycle passActor passTemp 0 0 0 sampleBatch 0 0 0 0 (by decide)
    (show BatchLen sampleBatch 4 by decide) (by decide)

lemma listMean_map_neg (l : List ℚ) : listMean (l.map fun x => -x) = -listMean l := by
  have hs : (l.map fun x => -x).sum = -l.sum := by
    induction l with
    | nil => simp
    | cons a t ih => simp [ih]; ring
  unfold listMean
  rw [List.length_map, hs, neg_div]

/-- Claim C2: in `update_actor`, the critic ensemble evaluated at
`(observations, sampled_actions)` is reduced by the mean across ensemble
members (axis 0: batch entry `j` becomes the sum over members of their `j`-th
output divided by the member count), the actor loss is the mean over the batch
of `temperature · log_prob − mean_Q`, and the returned entropy estimate is the
mean over the batch of `−log_prob`. -/
theorem update_actor_mean_reduction {Obs Act AP QP EP G ActorState QfState EntState Key : Type}
    (split3 : Key → Key × Key × Key)
    (actor_apply : AP → List Obs → ActorDist Key Act)
    (qf_apply : QP → List Obs → List Act → Key → List (List ℚ))
    (ent_coef_apply : EP → ℚ)
    (grad : (AP → ℚ × ℚ) → AP → G)
    (actor_params : ActorState → AP)
    (apply_gradients : ActorState → G → ActorState)
    (qf_params : QfState → QP)
    (ent_params : EntState → EP)
    (actor_state : ActorState) (qf_state : QfState) (ent_coef_state : EntState)
    (observations : List Obs) (key : Key)
    (dk nk : Key) (hdk : dk = (split3 key).2.1) (hnk : nk = (split3 key).2.2)
    (acts : List Act)
    (hacts : acts = (actor_apply (actor_params actor_state) observations).sample nk)
    (lp : List ℚ)
    (hlp : lp = (actor_apply (actor_params actor_state) observations).log_prob acts)
    (qs : List (List ℚ))
    (hqs : qs = qf_apply (qf_params qf_state) observations acts dk)
    (hw : (qs.headD []).length = lp.length) :
    (update_actor split3 actor_apply qf_apply ent_coef_apply grad actor_params
        apply_gradients qf_params ent_params actor_state qf_state ent_coef_state
        observations key).2.2.1
      = listMean (List.zipWith
          (fun l q => ent_coef_apply (ent_params ent_coef_state) * l - q) lp
          ((List.range lp.length).map fun j =>
            (qs.map fun row => row.getD j 0).sum / (qs.length : ℚ)))
    ∧ (update_actor split3 actor_apply qf_apply ent_coef_apply grad actor_params
        apply_gradients qf_params ent_params actor_state qf_state ent_coef_state
        observations key).2.2.2.2
      = listMean (lp.map fun x => -x) := by
  subst hacts
  subst hlp
  subst hqs
  subst hdk
  subst hnk
  constructor
  · show listMean (List.zipWith _ _ (meanAxis0 _)) = _
    rw [meanAxis0, hw]
  · show -listMean _ = _
    rw [listMean_map_neg]

/-- Witness for C2 at a concrete input: a two-member critic ensemble over a
two-element batch with temperature 2; the loss evaluates to `-5` and the
entropy estimate to `5/4`. -/
theorem update_actor_mean_reduction_witness :
    (update_actor (fun k : ℕ => (k, k + 1, k + 2))
        (fun _ : Unit => fun _ : List ℕ =>
          (⟨fun _ => [7, 8], fun _ => [1/2, -3]⟩ : ActorDist ℕ ℕ))
        (fun _ : Unit => fun _ _ _ => [[1, 2], [3, 4]])
        (fun _ : Unit => 2) (fun _ _ => ()) (fun _ : ℕ => ()) (fun a _ => a)
        (fun _ : ℕ => ()) (fun _ : ℕ => ()) 0 0 0 [10, 20] 5).2.2.1
      = listMean (List.zipWith (fun l q => 2 * l - q) [1/2, -3]
          ((List.range ([1/2, -3] : List ℚ).length).map fun j =>
            (([[1, 2], [3, 4]] : List (List ℚ)).map fun row => row.getD j 0).sum
              / (([[1, 2], [3, 4]] : List (List ℚ)).length : ℚ)))
    ∧ (update_actor (fun k : ℕ => (k, k + 1, k + 2))
        (fun _ : Unit => fun _ : List ℕ =>
          (⟨fun _ => [7, 8], fun _ => [1/2, -3]⟩ : ActorDist ℕ ℕ))
        (fun _ : Unit => fun _ _ _ => [[1, 2], [3, 4]])
        (fun _ : Unit => 2) (fun _ _ => ()) (fun _ : ℕ => ()) (fun a _ => a)
        (fun _ : ℕ => ()) (fun _ : ℕ => ()) 0 0 0 [10, 20] 5).2.2.2.2
      = listMean (([1/2, -3] : List ℚ).map fun x => -x) :=
  update_actor_mean_reduction (fun k : ℕ => (k, k + 1, k + 2))
    (fun _ : Unit => fun _ : List ℕ =>
      (⟨fun _ => [7, 8], fun _ => [1/2, -3]⟩ : ActorDist ℕ ℕ))
    (fun _ : Unit => fun _ _ _ => [[1, 2], [3, 4]])
    (fun _ : Unit => 2) (fun _ _ => ()) (fun _ : ℕ => ()) (fun a _ => a)
    (fun _ : ℕ => ()) (fun _ : ℕ => ()) 0 0 0 [10, 20] 5 6 7 rfl rfl [7, 8] rfl
    [1/2, -3] rfl [[1, 2], [3, 4]] rfl (by decide)

/-- Claim C8: `update_actor` returns the critic parameter state it was given,
unchanged; the actor state is modified only by applying the gradient step; the
entropy-coefficient state is neither returned nor modified (the return tuple
contains no entropy-coefficient component). -/
theorem update_actor_frame {Obs Act AP QP EP G ActorState QfState EntState Key : Type}
    (split3 : Key → Key × Key × Key)
    (actor_apply : AP → List Obs → ActorDist Key Act)
    (qf_apply : QP → List Obs → List Act → Key → List (List ℚ))
    (ent_coef_apply : EP → ℚ)
    (grad : (AP → ℚ × ℚ) → AP → G)
    (actor_params : ActorState → AP)
    (apply_gradients : ActorState → G → ActorState)
    (qf_params : QfState → QP)
    (ent_params : EntState → EP)
    (actor_state : ActorState) (qf_state : QfState) (ent_coef_state : EntState)
    (observations : List Obs) (key : Key) :
    (update_actor split3 actor_apply qf_apply ent_coef_apply grad actor_params
        apply_gradients qf_params ent_params actor_state qf_state ent_coef_state
        observations key).2.1 = qf_state
    ∧ ∃ g, (update_actor split3 actor_apply qf_apply ent_coef_apply grad actor_params
        apply_gradients qf_params ent_params actor_state qf_state ent_coef_state
        observations key).1 = apply_gradients actor_state g :=
  ⟨rfl, _, rfl⟩

/-- Modelled from the spec: the Random Key Stream (§2, §3) — "a deterministic,
splittable source of randomness; every stochastic operation consumes a fresh,
statistically independent sub-key"; `jax.random.split(key, 3)` is modelled as
extending a path in the split tree, so the three sub-keys are pairwise
distinct and distinct from every key split off earlier. Returned in the order
`(carry, dropout_key, noise_key)` of the Python unpacking. -/
def keySplit3 (k : List ℕ) : List ℕ × List ℕ × List ℕ :=
  (0 :: k, 1 :: k, 2 :: k)

/-- Modelled from the spec: `SAC.update_critic` (not under the verified
sources; §4.1 "split key into `(key, dropout_key, noise_key)`") consumes its
input key by splitting it and returns the carry sub-key; the stub additionally
records the key it received in the critic state. -/
def keyRecCritic {ActorState EntState : Type} :
    UpdateCritic ℚ ℚ ℚ (List (List ℕ)) ActorState EntState (List ℕ) :=
  fun _gamma _a q _e _ _ _ _ _ k => (q ++ [k], (0, 0), (keySplit3 k).1)

/-- The source `update_actor` instantiated with the spec-modelled key stream
and trivial network stubs, exposing only its key discipline. -/
def keyActor : UpdateActorFn ℚ ℕ (List (List ℕ)) ℕ (List ℕ) :=
  update_actor keySplit3
    (fun _ _ => (⟨fun _ => [], fun _ => []⟩ : ActorDist (List ℕ) ℚ))
    (fun _ _ _ _ => ([] : List (List ℚ)))
    (fun _ => 0) (fun _ _ => ()) (fun _ => ()) (fun a _ => a) (fun _ => ()) (fun _ => ())

lemma keyActor_eq (a : ℕ) (q : List (List ℕ)) (e : ℕ) (obs : List ℚ) (k : List ℕ) :
    keyActor a q e obs k = (a, q, 0, (keySplit3 k).1, 0) := by
  simp [keyActor, update_actor, listMean, meanAxis0]

lemma foldl_keyRecCritic {ActorState EntState : Type} (gamma tau : ℚ) (n : ℕ)
    (data : ReplayBufferSamplesNp ℚ ℚ ℚ) (a0 : ActorState) (e0 : EntState) (l : List ℕ) :
    ∀ s : CriticLoopState (List (List ℕ)) (List ℕ),
      (l.foldl (criticStepPure keyRecCritic passSoft gamma tau n data a0 e0) s).qf_state
          = s.qf_state ++ (List.range l.length).map (fun i => List.replicate i 0 ++ s.key)
      ∧ (l.foldl (criticStepPure keyRecCritic passSoft gamma tau n data a0 e0) s).key
          = List.replicate l.length 0 ++ s.key := by
  induction l with
  | nil => intro s; simp
  | cons i rest ih =>
    intro s
    rw [List.foldl_cons]
    have hstep : criticStepPure keyRecCritic passSoft gamma tau n data a0 e0 s i
        = ⟨s.n_updates + 1, s.qf_state ++ [s.key], 0 :: s.key, (0, 0)⟩ := by
      simp [criticStepPure, keyRecCritic, passSoft, keySplit3]
    rw [hstep]
    obtain ⟨ihq, ihk⟩ := ih ⟨s.n_updates + 1, s.qf_state ++ [s.key], 0 :: s.key, (0, 0)⟩
    have hshift : ∀ j : ℕ, List.replicate j 0 ++ (0 :: s.key)
        = List.replicate (j + 1) 0 ++ s.key := by
      intro j
      rw [List.replicate_succ']
      simp
    constructor
    · rw [ihq]
      simp only [List.length_cons, List.range_succ_eq_map, List.map_cons, List.map_map]
      rw [List.append_assoc]
      congr 1
      simp only [List.replicate_zero, List.nil_append, List.singleton_append]
      congr 1
      apply List.map_congr_left
      intro a _
      simp only [Function.comp]
      rw [hshift a]
    · rw [ihk, hshift rest.length]
      simp

/-- Claim C7: across one `_train` invocation the random keys are threaded
linearly — cycle `i` of the critic loop consumes exactly the carry key
produced by cycle `i - 1` (cycle 0 consumes the input key), the actor update
consumes the loop's final carry key, `update_actor` splits its input key into
three pairwise-distinct fresh sub-keys and returns the carry — and the keys
consumed by the distinct stochastic consumers (the `n` critic updates, the
actor update, and the actor's dropout and noise sub-keys) are pairwise
distinct. The key stream itself is modelled from the spec as paths in the
split tree. -/
theorem train_key_threading (gamma tau target_entropy : ℚ) {n B : ℕ}
    (data : ReplayBufferSamplesNp ℚ ℚ ℚ) (n_updates : ℕ) (a0 e0 : ℕ) (k0 : List ℕ)
    (hn : 1 ≤ n) (hB : BatchLen data B) (hdvd : B % n = 0) :
    (∀ k : List ℕ, (keySplit3 k).1 ≠ (keySplit3 k).2.1 ∧ (keySplit3 k).1 ≠ (keySplit3 k).2.2
      ∧ (keySplit3 k).2.1 ≠ (keySplit3 k).2.2 ∧ (keySplit3 k).1 ≠ k
      ∧ (keySplit3 k).2.1 ≠ k ∧ (keySplit3 k).2.2 ≠ k)
    ∧ ∃ r, _train keyRecCritic passSoft keyActor passTemp gamma tau target_entropy n data
        n_updates [] a0 e0 k0 = some r
      ∧ r.2.1 = (List.range n).map (fun i => List.replicate i 0 ++ k0)
      ∧ r.2.2.2.2.1 = (keySplit3 (List.replicate n 0 ++ k0)).1
      ∧ (((List.range n).map fun i => List.replicate i 0 ++ k0)
          ++ [List.replicate n 0 ++ k0, (keySplit3 (List.replicate n 0 ++ k0)).2.1,
              (keySplit3 (List.replicate n 0 ++ k0)).2.2]).Pairwise (· ≠ ·) := by
  constructor
  · intro k
    refine ⟨by simp [keySplit3], by simp [keySplit3], by simp [keySplit3], ?_, ?_, ?_⟩
    all_goals
      intro hc
      have := congrArg List.length hc
      simp only [keySplit3, List.length_cons] at this
      omega
  · rw [train_eq_of_dvd keyRecCritic passSoft keyActor passTemp gamma tau target_entropy
      data n_updates [] a0 e0 k0 (by omega) hB hdvd]
    obtain ⟨hq, hk⟩ := foldl_keyRecCritic gamma tau n data a0 e0 (List.range n)
      (⟨n_updates, [], k0, (0, 0)⟩ : CriticLoopState (List (List ℕ)) (List ℕ))
    simp only [List.nil_append, List.length_range] at hq hk
    refine ⟨_, rfl, ?_, ?_, ?_⟩
    · rw [keyActor_eq]
      exact hq
    · rw [keyActor_eq]
      show (keySplit3 _).1 = _
      rw [hk]
    · rw [List.pairwise_append]
      refine ⟨?_, ?_, ?_⟩
      · rw [List.pairwise_map]
        apply List.Pairwise.imp ?_ (List.pairwise_lt_range n)
        intro i j hij hc
        have := congrArg List.length hc
        simp only [List.length_append, List.length_replicate] at this
        omega
      · simp only [keySplit3]
        refine List.Pairwise.cons ?_ (List.Pairwise.cons ?_ ?_)
        · intro b hb
          simp only [List.mem_cons, List.not_mem_nil, or_false] at hb
          rcases hb with rfl | rfl
          all_goals
            intro hc
            have := congrArg List.length hc
            simp only [List.length_append, List.length_replicate, List.length_cons] at this
            omega
        · intro b hb
          simp only [List.mem_cons, List.not_mem_nil, or_false] at hb
          subst hb
          simp
        · simp
      · intro a ha b hb
        obtain ⟨i, hi, rfl⟩ := List.mem_map.mp ha
        have hiln : i < n := List.mem_range.mp hi
        simp only [keySplit3, List.mem_cons, List.not_mem_nil, or_false] at hb
        rcases hb with rfl | rfl | rfl
        all_goals
          intro hc
          have := congrArg List.length hc
          simp only [List.length_append, List.length_replicate, List.length_cons] at this
          omega

/-- Witness for C7 at a concrete input: `n = 2`, input key `[5]`, batch of
length 4. -/
theorem train_key_threading_witness :
    (∀ k : List ℕ, (keySplit3 k).1 ≠ (keySplit3 k).2.1 ∧ (keySplit3 k).1 ≠ (keySplit3 k).2.2
      ∧ (keySplit3 k).2.1 ≠ (keySplit3 k).2.2 ∧ (keySplit3 k).1 ≠ k
      ∧ (keySplit3 k).2.1 ≠ k ∧ (keySplit3 k).2.2 ≠ k)
    ∧ ∃ r, _train keyRecCritic passSoft keyActor passTemp 0 0 0 2 sampleBatch
        0 [] 0 0 [5] = some r
      ∧ r.2.1 = (List.range 2).map (fun i => List.replicate i 0 ++ [5])
      ∧ r.2.2.2.2.1 = (keySplit3 (List.replicate 2 0 ++ [5])).1
      ∧ (((List.range 2).map fun i => List.replicate i 0 ++ [5])
          ++ [List.replicate 2 0 ++ [5], (keySplit3 (List.replicate 2 0 ++ [5])).2.1,
              (keySplit3 (List.replicate 2 0 ++ [5])).2.2]).Pairwise (· ≠ ·) :=
  train_key_threading 0 0 0 sampleBatch 0 0 0 [5] (by decide)
    (show BatchLen sampleBatch 4 by decide) (by decide)

/-- Critic state holding online and target parameter vectors, for the
spec-modelled soft update. -/
structure QfTargetState where
  online : List ℚ
  target : List ℚ
deriving DecidableEq

/-- Modelled from the spec: `SAC.soft_update` (not under the verified sources;
§4.2) — "for every parameter tensor, `target ← tau · online + (1 − tau) ·
target`, elementwise", "no failure modes; pure arithmetic, total function". -/
def soft_update (tau : ℚ) (q : QfTargetState) : QfTargetState :=
  ⟨q.online, List.zipWith (fun o t => tau * o + (1 - tau) * t) q.online q.target⟩

/-- Counterexample to claim C6: `_train` invoked with `tau = 2` (outside
`(0, 1]`) and `gamma = 3/2` (outside `(0, 1)`) does not abort — it completes
normally, with the spec-modelled soft update arithmetic executed at the
invalid `tau` (the target parameter `0` is blended to `2` and back to `0`).
No hyperparameter validation exists in the constructor or in `_train`. -/
theorem hyperparam_validation_cex :
    _train (passCritic : UpdateCritic ℚ ℚ ℚ QfTargetState ℕ ℕ ℕ) soft_update passActor
        passTemp (3/2) 2 0 2 sampleBatch 0 ⟨[1], [0]⟩ 0 0 0
      = some (2, ⟨[1], [0]⟩, 0, 0, 0, (0, 0, 0)) := by
  rw [train_eq_of_dvd passCritic soft_update passActor passTemp (3/2) 2 0 sampleBatch
    0 ⟨[1], [0]⟩ 0 0 0 (by decide) (show BatchLen sampleBatch 4 by decide) (by decide)]
  simp only [show (2 : ℕ) = 1 + 1 from rfl, List.range_succ, List.range_zero,
    List.nil_append, List.append_assoc, List.singleton_append, List.foldl_cons,
    List.foldl_nil, criticStepPure, passCritic, soft_update, passActor, passTemp,
    List.zipWith_cons_cons, List.zipWith_nil_right]
  norm_num

/-- Claim C6 as amended: `tau` and `gamma` are never validated — for every
`tau` and `gamma` whatsoever (in particular out-of-range values) a `_train`
invocation with `gradient_steps ≥ 1` and a divisible batch completes normally
and runs with the invalid value; `gradient_steps = 0` does abort the
invocation, but only when the post-loop actor update refers to the slicing
helper that the (empty) critic loop never defined, not through an eager
up-front check. -/
theorem hyperparam_no_validation :
    (∀ (Obs Act R QfState ActorState EntState Key : Type)
      (uc : UpdateCritic Obs Act R QfState ActorState EntState Key)
      (su : SoftUpdate QfState) (ua : UpdateActorFn Obs ActorState QfState EntState Key)
      (ut : UpdateTemperature EntState) (gamma tau target_entropy : ℚ) (n B : ℕ)
      (data : ReplayBufferSamplesNp Obs Act R) (nu : ℕ) (q0 : QfState) (a0 : ActorState)
      (e0 : EntState) (k0 : Key), 1 ≤ n → BatchLen data B → B % n = 0 →
        (_train uc su ua ut gamma tau target_entropy n data nu q0 a0 e0 k0).isSome)
    ∧ (∀ (Obs Act R QfState ActorState EntState Key : Type)
      (uc : UpdateCritic Obs Act R QfState ActorState EntState Key)
      (su : SoftUpdate QfState) (ua : UpdateActorFn Obs ActorState QfState EntState Key)
      (ut : UpdateTemperature EntState) (gamma tau target_entropy : ℚ)
      (data : ReplayBufferSamplesNp Obs Act R) (nu : ℕ) (q0 : QfState) (a0 : ActorState)
      (e0 : EntState) (k0 : Key),
        _train uc su ua ut gamma tau target_entropy 0 data nu q0 a0 e0 k0 = none) := by
  constructor
  · intro Obs Act R QfState ActorState EntState Key uc su ua ut gamma tau target_entropy
      n B data nu q0 a0 e0 k0 hn hB hdvd
    rw [train_eq_of_dvd uc su ua ut gamma tau target_entropy data nu q0 a0 e0 k0
      (by omega) hB hdvd]
    simp
  · intro Obs Act R QfState ActorState EntState Key uc su ua ut gamma tau target_entropy
      data nu q0 a0 e0 k0
    rfl

/-- Witness for the amended C6 at concrete inputs: completion with
`tau = 2, gamma = 3/2, n = 2`, and abort with `gradient_steps = 0`. -/
theorem hyperparam_no_validation_witness :
    (_train (passCritic : UpdateCritic ℚ ℚ ℚ QfTargetState ℕ ℕ ℕ) soft_update passActor
        passTemp (3/2) 2 0 2 sampleBatch 0 ⟨[1], [0]⟩ 0 0 0).isSome
    ∧ _train (passCritic : UpdateCritic ℚ ℚ ℚ QfTargetState ℕ ℕ ℕ) soft_update passActor
        passTemp (3/2) 2 0 0 sampleBatch 0 ⟨[1], [0]⟩ 0 0 0 = none :=
  ⟨hyperparam_no_validation.1 ℚ ℚ ℚ QfTargetState ℕ ℕ ℕ passCritic soft_update passActor
      passTemp (3/2) 2 0 2 4 sampleBatch 0 ⟨[1], [0]⟩ 0 0 0 (by decide)
      (show BatchLen sampleBatch 4 by decide) (by decide),
   hyperparam_no_validation.2 ℚ ℚ ℚ QfTargetState ℕ ℕ ℕ passCritic soft_update passActor
      passTemp (3/2) 2 0 sampleBatch 0 ⟨[1], [0]⟩ 0 0 0⟩

/-- Values stored in the `policy_kwargs` dictionary. -/
inductive KwVal where
  | num : ℚ → KwVal
  | flag : Bool → KwVal
deriving DecidableEq

/-- Python dict assignment `d[k] = v` on an association list with unique keys:
replace the binding in place if the key is present, append otherwise. -/
def dictSet : List (String × KwVal) → String → KwVal → List (String × KwVal)
  | [], k, v => [(k, v)]
  | p :: t, k, v => if p.1 = k then (k, v) :: t else p :: dictSet t k v

/-- Modelled from the spec: the parent (`SAC`) constructor chain is "argument
plumbing and default-value wiring" (§1) — it stores the caller's
`policy_kwargs` argument unchanged, with `None` becoming the empty dict. -/
def superPolicyKwargs (policy_kwargs : Option (List (String × KwVal))) :
    List (String × KwVal) :=
  policy_kwargs.getD []

/-- Default value of the `dropout_rate` constructor argument (droq.py line
35). -/
def default_dropout_rate : ℚ := 1 / 100

/-- Default value of the `layer_norm` constructor argument (droq.py line
36). -/
def default_layer_norm : Bool := true

/-- Embedding of `DroQ_SAC.__init__` (droq.py lines 23-72) restricted to its
observable effect on `policy_kwargs`: call the parent constructor, then
unconditionally write the `dropout_rate` and `layer_norm` constructor
arguments into the stored dict (lines 71-72, after the `super().__init__`
call). -/
def droq_init_policy_kwargs (policy_kwargs : Option (List (String × KwVal)))
    (dropout_rate : ℚ) (layer_norm : Bool) : List (String × KwVal) :=
  dictSet (dictSet (superPolicyKwargs policy_kwargs) ("dropout_rate")
    (KwVal.num dropout_rate)) ("layer_norm") (KwVal.flag layer_norm)

lemma lookup_dictSet_self : ∀ (d : List (String × KwVal)) (k : String) (v : KwVal),
    (dictSet d k v).lookup k = some v := by
  intro d k v
  induction d with
  | nil => simp [dictSet, List.lookup]
  | cons p t ih =>
    rw [dictSet]
    by_cases hp : p.1 = k
    · rw [if_pos hp]
      simp [List.lookup]
    · rw [if_neg hp]
      rw [List.lookup]
      have : (k == p.1) = false := by
        simp only [beq_eq_false_iff_ne, ne_eq]
        exact fun hc => hp hc.symm
      rw [this]
      exact ih

lemma lookup_dictSet_ne : ∀ (d : List (String × KwVal)) (k k' : String) (v : KwVal),
    k ≠ k' → (dictSet d k' v).lookup k = d.lookup k := by
  intro d k k' v hkk
  induction d with
  | nil =>
    simp only [dictSet, List.lookup]
    have : (k == k') = false := by simpa using hkk
    rw [this]
  | cons p t ih =>
    rw [dictSet]
    by_cases hp : p.1 = k'
    · rw [if_pos hp]
      rw [List.lookup, List.lookup]
      have h1 : (k == k') = false := by simpa using hkk
      have h2 : (k == p.1) = false := by
        simp only [beq_eq_false_iff_ne, ne_eq]
        intro hc
        exact hkk (hc ▸ hp)
      rw [h1, h2]
    · rw [if_neg hp]
      rw [List.lookup, List.lookup]
      cases h : (k == p.1) <;> simp [ih]

/-- Claim C10: after construction, `policy_kwargs` always contains the
`dropout_rate` and `layer_norm` entries, holding exactly the explicit
constructor arguments (the writes happen after the parent constructor stored
the caller's dict, so any caller-supplied `dropout_rate` or `layer_norm`
values inside `policy_kwargs` are overwritten); with the default arguments the
stored values are `0.01` and `true`. -/
theorem droq_init_policy_kwargs_overwrites
    (policy_kwargs : Option (List (String × KwVal)))
    (dropout_rate : ℚ) (layer_norm : Bool) :
    ((droq_init_policy_kwargs policy_kwargs dropout_rate layer_norm).lookup ("dropout_rate")
        = some (KwVal.num dropout_rate)
      ∧ (droq_init_policy_kwargs policy_kwargs dropout_rate layer_norm).lookup ("layer_norm")
        = some (KwVal.flag layer_norm))
    ∧ ((droq_init_policy_kwargs policy_kwargs default_dropout_rate
          default_layer_norm).lookup ("dropout_rate") = some (KwVal.num (1 / 100))
      ∧ (droq_init_policy_kwargs policy_kwargs default_dropout_rate
          default_layer_norm).lookup ("layer_norm") = some (KwVal.flag true)) := by
  have h : ∀ (dr : ℚ) (ln : Bool),
      (droq_init_policy_kwargs policy_kwargs dr ln).lookup ("dropout_rate")
          = some (KwVal.num dr)
        ∧ (droq_init_policy_kwargs policy_kwargs dr ln).lookup ("layer_norm")
          = some (KwVal.flag ln) := by
    intro dr ln
    constructor
    · rw [droq_init_policy_kwargs, lookup_dictSet_ne _ _ _ _ (by decide),
        lookup_dictSet_self]
    · rw [droq_init_policy_kwargs, lookup_dictSet_self]
  exact ⟨h dropout_rate layer_norm, h default_dropout_rate default_layer_norm⟩

end Sbx
